import Mathlib

/-
Shallow embedding of the `auth` package of kube-rbac-proxy (src/auth/auth.go).

The embedding covers the request-to-decision pipeline:
  * the template expander `templateWithValue`,
  * the configuration model (`AuthConfig` and its sub-blocks) and `AuthConfig.DeepCopy`,
  * the authorization attribute resolver `GetRequestAttributes`,
  * the access decision gate `Handle`.

Go pointers that may be nil are embedded as `Option`; a Go runtime panic
(nil-pointer dereference, or a re-raised runtime error inside the template
engine) is embedded as the result `none` of an `Option`-valued function.
The external authenticator and authorizer are inputs of `Handle`:
the authenticator's outcome for the request is a value (`AuthnOutcome`,
mirroring the Go triple `u, ok, err`), the authorizer is a function from
attributes to an outcome (`AuthzOutcome`, mirroring `authorized, reason, err`).
`Handle` additionally records, in `GateResult.authorized`, the exact sequence
of attribute records passed to the authorizer, in call order, so that
short-circuiting and evaluation order are observable facts of the model.
-/

/-! ## Template expander

`templateWithValue` (src/auth/auth.go:345-351) parses its first argument with
Go's `text/template` and executes it against `struct{ Value string }{Value: value}`,
discarding both the parse error and the execute error.

The model below embeds the fragment of `text/template` that this code can
exercise: template text is literal text interleaved with actions
`{{.Ident}}` (field access on the data struct).  Behaviour mirrored from
`text/template`:

  * `Parse` fails on a syntax error (e.g. an unclosed `{{` action, or an
    action that is not a field access in our fragment) and then returns a
    nil `*Template`.  Calling `Execute` on that nil template dereferences a
    nil pointer; `errRecover` re-panics runtime errors, so execution panics.
    In the model a parse failure therefore makes `templateWithValue` return
    `none` (= panic), exactly because the Go code ignores the parse error.
  * `Execute` writes output incrementally; an execution-time error (a field
    the data struct does not have, e.g. `{{.Missing}}`) stops the walk and
    returns an error, leaving the partial output in the buffer.  The Go code
    ignores that error and returns the buffer, hence a silent partial result.
  * The empty template parses and renders to the empty string.
-/

def lbrace : Char := Char.ofNat 123

def rbrace : Char := Char.ofNat 125

/-- One parsed node of a template: literal text, or a field action
`\x7b\x7b.name\x7d\x7d`. -/
inductive TmplNode where
  | text (s : String)
  | field (name : String)
deriving DecidableEq, Repr

/-- Scan for the first occurrence of the two-character delimiter `d d`:
returns the text before it and, when found, the remainder after it. -/
def findDelim (d : Char) : List Char → List Char × Option (List Char)
  | [] => ([], none)
  | [c] => ([c], none)
  | c :: c2 :: rest =>
    if c == d && c2 == d then ([], some rest)
    else (c :: (findDelim d (c2 :: rest)).1, (findDelim d (c2 :: rest)).2)

def findOpen : List Char → List Char × Option (List Char) := findDelim lbrace

def findClose : List Char → List Char × Option (List Char) := findDelim rbrace

def isFieldChar (c : Char) : Bool := c.isAlphanum || c == '_'

def trimSpaces (cs : List Char) : List Char :=
  ((cs.dropWhile (fun c => c == ' ')).reverse.dropWhile (fun c => c == ' ')).reverse

/-- Parse the inside of one action: in the modelled fragment this must be a
field access `.Ident`; anything else is a parse error (`none`). -/
def parseAction (act : List Char) : Option String :=
  match trimSpaces act with
  | [] => none
  | c :: rest =>
    if c == '.' && !rest.isEmpty && rest.all isFieldChar then some (String.mk rest)
    else none

/-- Fuel-indexed template parser.  Each recursive step consumes one whole
action (at least four characters), so fuel `length + 1` never runs out;
`tmplParseFuel_congr` below proves the result is fuel-independent. -/
def tmplParseFuel : Nat → List Char → Option (List TmplNode)
  | 0, _ => none
  | fuel + 1, cs =>
    match findOpen cs with
    | (txt, none) => some [TmplNode.text (String.mk txt)]
    | (txt, some rest) =>
      match findClose rest with
      | (_, none) => none
      | (act, some rest2) =>
        match parseAction act with
        | none => none
        | some f =>
          match tmplParseFuel fuel rest2 with
          | none => none
          | some ns => some (TmplNode.text (String.mk txt) :: TmplNode.field f :: ns)

/-- Parse a template string; `none` is a parse error. -/
def tmplParse (s : String) : Option (List TmplNode) :=
  tmplParseFuel (s.data.length + 1) s.data

/-- Execute a parsed template against the data `struct\x7b Value string \x7d`:
returns the output written so far together with an error flag.  A field other
than `Value` is an execution error: the walk stops, output up to that point
remains (mirrors `text/template` writing through the buffer incrementally). -/
def tmplExec (value : String) : List TmplNode → String × Bool
  | [] => ("", false)
  | TmplNode.text s :: rest =>
    (s ++ (tmplExec value rest).1, (tmplExec value rest).2)
  | TmplNode.field f :: rest =>
    if f == "Value" then (value ++ (tmplExec value rest).1, (tmplExec value rest).2)
    else ("", true)

/-- Embedding of `templateWithValue` (src/auth/auth.go:345-351).
The Go code discards the `Parse` error, so on a parse failure it calls
`Execute` on a nil `*Template`, which re-panics a nil-pointer runtime error:
modelled as `none`.  The `Execute` error is also discarded, so the buffer
contents (full or partial output) are returned regardless. -/
def templateWithValue (templateString value : String) : Option String :=
  match tmplParse templateString with
  | none => none
  | some nodes => some (tmplExec value nodes).1

/-! ## Configuration model (src/auth/auth.go:41-88) -/

structure X509Config where
  ClientCAFile : String
deriving DecidableEq, Repr

structure AuthnHeaderConfig where
  Enabled : Bool
  UserFieldName : String
  GroupsFieldName : String
  GroupSeparator : String
deriving DecidableEq, Repr

structure AuthnConfig where
  X509 : Option X509Config
  Header : Option AuthnHeaderConfig
deriving DecidableEq, Repr

structure QueryParameterRewriteConfig where
  Name : String
deriving DecidableEq, Repr

structure SubjectAccessReviewRewrites where
  ByQueryParameter : Option QueryParameterRewriteConfig
deriving DecidableEq, Repr

structure ResourceAttributes where
  Namespace : String
  APIGroup : String
  APIVersion : String
  Resource : String
  Subresource : String
  Name : String
deriving DecidableEq, Repr

structure AuthzConfig where
  Rewrites : Option SubjectAccessReviewRewrites
  ResourceAttributes : Option ResourceAttributes
deriving DecidableEq, Repr

structure AuthConfig where
  Authentication : Option AuthnConfig
  Authorization : Option AuthzConfig
deriving DecidableEq, Repr

/-- Embedding of `AuthConfig.DeepCopy` (src/auth/auth.go:90-130), branch by
branch: the result's `Authentication` starts as a fresh empty `AuthnConfig`
(so a nil source `Authentication` becomes a non-nil empty one); `X509` and
`Header` are copied field-wise when present; `Authorization` is copied only
when both it and its `ResourceAttributes` are non-nil, and then only the
`ResourceAttributes` sub-block is copied — the code never reads
`c.Authorization.Rewrites`. -/
def AuthConfig.DeepCopy (c : AuthConfig) : AuthConfig :=
  { Authentication :=
      match c.Authentication with
      | none => some { X509 := none, Header := none }
      | some a =>
        some { X509 :=
                 match a.X509 with
                 | none => none
                 | some x => some { ClientCAFile := x.ClientCAFile },
               Header :=
                 match a.Header with
                 | none => none
                 | some hd =>
                   some { Enabled := hd.Enabled, UserFieldName := hd.UserFieldName,
                          GroupsFieldName := hd.GroupsFieldName,
                          GroupSeparator := hd.GroupSeparator } },
    Authorization :=
      match c.Authorization with
      | none => none
      | some z =>
        match z.ResourceAttributes with
        | none => none
        | some ra =>
          some { Rewrites := none,
                 ResourceAttributes :=
                   some { Namespace := ra.Namespace, APIGroup := ra.APIGroup,
                          APIVersion := ra.APIVersion, Resource := ra.Resource,
                          Subresource := ra.Subresource, Name := ra.Name } } }

/-! ## Requests, identities, attributes -/

/-- The authenticated identity, as consumed by the gate (`user.Info`:
only `GetName` and `GetGroups` are read). -/
structure UserInfo where
  name : String
  groups : List String
deriving DecidableEq, Repr

/-- The relevant parts of an `*http.Request`: the method, the URL path, the
parsed URL query (as the ordered key/value pairs of the query string, which is
what `r.URL.Query()` builds its multimap from), and the header collection. -/
structure Request where
  method : String
  urlPath : String
  query : List (String × String)
  header : List (String × String)
deriving DecidableEq, Repr

/-- One authorization attributes record (`authorizer.AttributesRecord`),
restricted to the fields `GetRequestAttributes` populates. -/
structure Attributes where
  User : UserInfo
  Verb : String
  Namespace : String
  APIGroup : String
  APIVersion : String
  Resource : String
  Subresource : String
  Name : String
  ResourceRequest : Bool
  Path : String
deriving DecidableEq, Repr

/-- The method-to-verb switch of `GetRequestAttributes`
(src/auth/auth.go:213-225): unmatched methods keep the initial `""`. -/
def apiVerbFor (method : String) : String :=
  if method = "POST" then "create"
  else if method = "GET" then "get"
  else if method = "PUT" then "update"
  else if method = "PATCH" then "patch"
  else if method = "DELETE" then "delete"
  else ""

/-- `r.URL.Query()[key]`: the two-valued map read `params, ok := ...`.
The key is present iff it occurs in the query string; its values are all
values for that key, in order. -/
def queryLookup (q : List (String × String)) (key : String) : Option (List String) :=
  if q.any (fun p => p.1 == key) then some ((q.filter (fun p => p.1 == key)).map Prod.snd)
  else none

/-! ## Authorization attribute resolver (src/auth/auth.go:203-287) -/

structure krpAuthorizerAttributesGetter where
  authzConfig : Option AuthzConfig
deriving DecidableEq, Repr

/-- The rewrite condition of src/auth/auth.go:230: the configured query
parameter name, provided `Rewrites`, `ByQueryParameter` are non-nil and the
name is non-empty; `none` means the condition is false and the literal
branch is taken. -/
def rewriteQueryKey (azc : AuthzConfig) : Option String :=
  match azc.Rewrites with
  | none => none
  | some rws =>
    match rws.ByQueryParameter with
    | none => none
    | some q => if q.Name = "" then none else some q.Name

/-- One attributes record of the rewrite loop body (src/auth/auth.go:236-248):
the six resource fields are rendered from the configured templates against the
current parameter value.  `none` propagates a template panic. -/
def rewriteAttrs (u : UserInfo) (apiVerb : String) (ra : ResourceAttributes)
    (param : String) : Option Attributes :=
  (templateWithValue ra.Namespace param).bind fun ns =>
  (templateWithValue ra.APIGroup param).bind fun ag =>
  (templateWithValue ra.APIVersion param).bind fun av =>
  (templateWithValue ra.Resource param).bind fun rs =>
  (templateWithValue ra.Subresource param).bind fun sr =>
  (templateWithValue ra.Name param).bind fun nm =>
  some { User := u, Verb := apiVerb, Namespace := ns, APIGroup := ag, APIVersion := av,
         Resource := rs, Subresource := sr, Name := nm, ResourceRequest := true, Path := "" }

/-- The `for _, param := range params` append loop, with panic propagation. -/
def collectAttrs (f : String → Option Attributes) : List String → Option (List Attributes)
  | [] => some []
  | p :: ps =>
    match f p with
    | none => none
    | some a =>
      match collectAttrs f ps with
      | none => none
      | some rest => some (a :: rest)

/-- The literal (no-rewrite) attributes record (src/auth/auth.go:251-262). -/
def literalAttrs (u : UserInfo) (apiVerb : String) (ra : ResourceAttributes) : Attributes :=
  { User := u, Verb := apiVerb, Namespace := ra.Namespace, APIGroup := ra.APIGroup,
    APIVersion := ra.APIVersion, Resource := ra.Resource, Subresource := ra.Subresource,
    Name := ra.Name, ResourceRequest := true, Path := "" }

/-- The non-resource attributes record (src/auth/auth.go:265-278). -/
def nonResourceAttrs (u : UserInfo) (apiVerb : String) (path : String) : Attributes :=
  { User := u, Verb := apiVerb, Namespace := "", APIGroup := "", APIVersion := "",
    Resource := "", Subresource := "", Name := "", ResourceRequest := false, Path := path }

/-- Embedding of `krpAuthorizerAttributesGetter.GetRequestAttributes`
(src/auth/auth.go:212-287).  Outer `none` is a panic: dereferencing a nil
`authzConfig`, or a template panic inside the rewrite loop.  `some []` is the
Go `return nil` taken when the rewrite parameter is absent from the URL. -/
def GetRequestAttributes (n : krpAuthorizerAttributesGetter) (u : UserInfo) (r : Request) :
    Option (List Attributes) :=
  match n.authzConfig with
  | none => none
  | some azc =>
    match azc.ResourceAttributes with
    | some ra =>
      match rewriteQueryKey azc with
      | some key =>
        match queryLookup r.query key with
        | none => some []
        | some params => collectAttrs (rewriteAttrs u (apiVerbFor r.method) ra) params
      | none => some [literalAttrs u (apiVerbFor r.method) ra]
    | none => some [nonResourceAttrs u (apiVerbFor r.method) r.urlPath]

/-! ## Access decision gate (src/auth/auth.go:295-343) -/

/-- The authorizer's decision (`authorizer.Decision`, restricted to the
values the gate distinguishes: allow versus everything else). -/
inductive Decision where
  | allow
  | deny
  | noOpinion
deriving DecidableEq, Repr

/-- Outcome of one `h.Authorize(attrs)` call: the decision and whether the
call returned an internal error (the reason string is never read). -/
structure AuthzOutcome where
  decision : Decision
  err : Bool
deriving DecidableEq, Repr

/-- Outcome of `h.AuthenticateRequest(req)` for this request: the Go triple
`u, ok, err` (with `err` abstracted to presence). -/
structure AuthnOutcome where
  u : UserInfo
  ok : Bool
  err : Bool
deriving DecidableEq, Repr

/-- `req.Header.Set(k, v)`: replaces any existing values for the key. -/
def headerSet (hs : List (String × String)) (k v : String) : List (String × String) :=
  hs.filter (fun p => !(p.1 == k)) ++ [(k, v)]

def badRequestMsg : String := "Bad Request. The request or configuration is malformed."

def authzErrorMsg (u : UserInfo) (a : Attributes) : String :=
  "Authorization error (user=" ++ u.name ++ ", verb=" ++ a.Verb ++ ", resource="
    ++ a.Resource ++ ", subresource=" ++ a.Subresource ++ ")"

def forbiddenMsg (u : UserInfo) (a : Attributes) : String :=
  "Forbidden (user=" ++ u.name ++ ", verb=" ++ a.Verb ++ ", resource="
    ++ a.Resource ++ ", subresource=" ++ a.Subresource ++ ")"

/-- The `for _, attrs := range allAttrs` authorization loop
(src/auth/auth.go:317-332).  First component: `none` when every query was
allowed, otherwise the first failing attributes record paired with `true`
for an internal authorizer error (500 path) and `false` for a non-allow
decision (403 path).  Second component: the queries actually passed to the
authorizer, in call order. -/
def authorizeSequence (az : Attributes → AuthzOutcome) :
    List Attributes → Option (Attributes × Bool) × List Attributes
  | [] => (none, [])
  | a :: rest =>
    if (az a).err then (some (a, true), [a])
    else if (az a).decision = Decision.allow then
      ((authorizeSequence az rest).1, a :: (authorizeSequence az rest).2)
    else (some (a, false), [a])

/-- Observable outcome of one `Handle` call. -/
structure GateResult where
  /-- the boolean `Handle` returns (`true` = forward upstream) -/
  returned : Bool
  /-- status and body written via `http.Error`, if any -/
  response : Option (Nat × String)
  /-- the request's header collection after the call -/
  reqHeader : List (String × String)
  /-- the attribute records passed to the authorizer, in call order -/
  authorized : List Attributes
deriving DecidableEq, Repr

/-- Embedding of `kubeRBACProxyAuth.Handle` (src/auth/auth.go:295-343).
The attributes getter is the one built by `newKubeRBACProxyAuth` from
`Config.Authorization`.  Outer `none` is a runtime panic: one propagated out
of `GetRequestAttributes`, or the nil-pointer dereference of
`h.Config.Authentication.Header` on the success path (src/auth/auth.go:334). -/
def Handle (cfg : AuthConfig) (authn : AuthnOutcome) (az : Attributes → AuthzOutcome)
    (r : Request) : Option GateResult :=
  if authn.err then
    some { returned := false, response := some (401, "Unauthorized"),
           reqHeader := r.header, authorized := [] }
  else if !authn.ok then
    some { returned := false, response := some (401, "Unauthorized"),
           reqHeader := r.header, authorized := [] }
  else
    match GetRequestAttributes { authzConfig := cfg.Authorization } authn.u r with
    | none => none
    | some allAttrs =>
      if allAttrs.length = 0 then
        some { returned := false, response := some (400, badRequestMsg),
               reqHeader := r.header, authorized := [] }
      else
        match authorizeSequence az allAttrs with
        | (some (a, true), tr) =>
          some { returned := false, response := some (500, authzErrorMsg authn.u a),
                 reqHeader := r.header, authorized := tr }
        | (some (a, false), tr) =>
          some { returned := false, response := some (403, forbiddenMsg authn.u a),
                 reqHeader := r.header, authorized := tr }
        | (none, tr) =>
          match cfg.Authentication with
          | none => none
          | some ac =>
            match ac.Header with
            | none => none
            | some hc =>
              if hc.Enabled then
                some { returned := true, response := none,
                       reqHeader :=
                         headerSet (headerSet r.header hc.UserFieldName authn.u.name)
                           hc.GroupsFieldName
                           (String.intercalate hc.GroupSeparator authn.u.groups),
                       authorized := tr }
              else
                some { returned := true, response := none,
                       reqHeader := r.header, authorized := tr }

/-! ## Concrete instances used by the witnesses -/

def uW : UserInfo := { name := "alice", groups := ["metrics-readers", "admins"] }

def authnOkW : AuthnOutcome := { u := uW, ok := true, err := false }

def authnErrW : AuthnOutcome := { u := uW, ok := true, err := true }

def azDenyW : Attributes → AuthzOutcome := fun _ => { decision := Decision.deny, err := false }

def azAllowW : Attributes → AuthzOutcome := fun _ => { decision := Decision.allow, err := false }

def raW8 : ResourceAttributes :=
  { Namespace := "kube-system", APIGroup := "metrics.k8s.io", APIVersion := "v1beta1",
    Resource := "pods", Subresource := "metrics", Name := "pod-1" }

def azcW7 : AuthzConfig :=
  { Rewrites := some { ByQueryParameter := some { Name := "namespace" } },
    ResourceAttributes := none }

def azcW8 : AuthzConfig := { Rewrites := none, ResourceAttributes := some raW8 }

def raW2 : ResourceAttributes :=
  { Namespace := "\x7b\x7b.Value\x7d\x7d", APIGroup := "", APIVersion := "",
    Resource := "metrics", Subresource := "", Name := "" }

def azcW2 : AuthzConfig :=
  { Rewrites := some { ByQueryParameter := some { Name := "namespace" } },
    ResourceAttributes := some raW2 }

def rW7 : Request :=
  { method := "GET", urlPath := "/metrics", query := [("namespace", "ns1")],
    header := [("Accept", "text/plain")] }

def rW8 : Request :=
  { method := "POST", urlPath := "/api",
    query := [("namespace", "evil"), ("name", "other")], header := [] }

def rW2 : Request :=
  { method := "GET", urlPath := "/metrics",
    query := [("namespace", "ns1"), ("foo", "bar"), ("namespace", "ns2")], header := [] }

def rW2absent : Request :=
  { method := "GET", urlPath := "/metrics", query := [("other", "x")], header := [] }

def rW9 : Request := { method := "OPTIONS", urlPath := "/api", query := [], header := [] }

def hcW : AuthnHeaderConfig :=
  { Enabled := true, UserFieldName := "X-Remote-User", GroupsFieldName := "X-Remote-Groups",
    GroupSeparator := "|" }

def acW : AuthnConfig := { X509 := none, Header := some hcW }

def cfgW : AuthConfig :=
  { Authentication := some { X509 := none, Header := none }, Authorization := none }

def cfgW1 : AuthConfig :=
  { Authentication := some { X509 := none, Header := none }, Authorization := some azcW8 }

def cfgW2 : AuthConfig :=
  { Authentication := some { X509 := none, Header := none }, Authorization := some azcW2 }

def cfgW4 : AuthConfig := { Authentication := some acW, Authorization := some azcW8 }

def cfgW10 : AuthConfig :=
  { Authentication := some { X509 := none, Header := none }, Authorization := some azcW8 }

/-- The single literal attributes record derived for `cfgW1`/`rW8`. -/
def aW1 : Attributes :=
  { User := uW, Verb := "create", Namespace := "kube-system", APIGroup := "metrics.k8s.io",
    APIVersion := "v1beta1", Resource := "pods", Subresource := "metrics", Name := "pod-1",
    ResourceRequest := true, Path := "" }

/-- The rewrite-rendered attributes record for one value of the `namespace`
query parameter under `azcW2`. -/
def attrsNsW2 (v : String) : Attributes :=
  { User := uW, Verb := "get", Namespace := v, APIGroup := "", APIVersion := "",
    Resource := "metrics", Subresource := "", Name := "", ResourceRequest := true, Path := "" }

def lW2 : List Attributes := [attrsNsW2 "ns1", attrsNsW2 "ns2"]

def grW4 : GateResult :=
  { returned := true, response := none,
    reqHeader := [("X-Remote-User", "alice"), ("X-Remote-Groups", "metrics-readers|admins")],
    authorized := [aW1] }

/-- The configuration exhibiting the `DeepCopy` divergence: `Rewrites` is set. -/
def c6Config : AuthConfig :=
  { Authentication := some { X509 := some { ClientCAFile := "/ca.pem" }, Header := some hcW },
    Authorization := some
      { Rewrites := some { ByQueryParameter := some { Name := "namespace" } },
        ResourceAttributes := some raW8 } }

/-! ## Helper lemmas -/

theorem findDelim_some_le (d : Char) :
    ∀ cs t r, findDelim d cs = (t, some r) → r.length + 2 ≤ cs.length := by
  intro cs
  induction cs with
  | nil => intro t r h; simp [findDelim] at h
  | cons c cs ih =>
    intro t r h
    cases cs with
    | nil => simp [findDelim] at h
    | cons c2 cs2 =>
      rw [findDelim] at h
      by_cases hc : (c == d && c2 == d) = true
      · rw [if_pos hc] at h
        cases h
        simp
      · rw [if_neg hc] at h
        have h2 : (findDelim d (c2 :: cs2)).2 = some r := congrArg Prod.snd h
        have := ih (findDelim d (c2 :: cs2)).1 r (by rw [← h2])
        simp only [List.length_cons] at this ⊢
        omega

/-- The parser's value does not depend on the fuel, as long as the fuel
exceeds the input length. -/
theorem tmplParseFuel_congr :
    ∀ fuel fuel' cs, cs.length < fuel → cs.length < fuel' →
      tmplParseFuel fuel cs = tmplParseFuel fuel' cs := by
  intro fuel
  induction fuel with
  | zero => intro fuel' cs h; omega
  | succ f ih =>
    intro fuel' cs h h'
    cases fuel' with
    | zero => omega
    | succ f' =>
      rw [tmplParseFuel, tmplParseFuel]
      cases hfo : findOpen cs with
      | mk txt orest =>
        cases orest with
        | none => rfl
        | some rest =>
          simp only []
          cases hfc : findClose rest with
          | mk act orest2 =>
            cases orest2 with
            | none => rfl
            | some rest2 =>
              simp only []
              cases parseAction act with
              | none => rfl
              | some fld =>
                simp only []
                have hr : rest.length + 2 ≤ cs.length := findDelim_some_le lbrace cs txt rest hfo
                have hr2 : rest2.length + 2 ≤ rest.length := findDelim_some_le rbrace rest act rest2 hfc
                rw [ih f' rest2 (by omega) (by omega)]


theorem authorizeSequence_append (az : Attributes → AuthzOutcome)
    (pre rest : List Attributes)
    (h : ∀ b ∈ pre, (az b).err = false ∧ (az b).decision = Decision.allow) :
    authorizeSequence az (pre ++ rest) =
      ((authorizeSequence az rest).1, pre ++ (authorizeSequence az rest).2) := by
  induction pre with
  | nil => simp
  | cons b bs ih =>
    have hb := h b (by simp)
    have hrec := ih (fun x hx => h x (by simp [hx]))
    simp only [List.cons_append, authorizeSequence, hb.1, hb.2, Bool.false_eq_true,
      if_false, if_true, List.append_eq, hrec]

theorem authorizeSequence_all_allow (az : Attributes → AuthzOutcome)
    (l : List Attributes)
    (h : ∀ b ∈ l, (az b).err = false ∧ (az b).decision = Decision.allow) :
    authorizeSequence az l = (none, l) := by
  have := authorizeSequence_append az l [] h
  simpa [authorizeSequence] using this

theorem collectAttrs_length (f : String → Option Attributes) :
    ∀ vs l, collectAttrs f vs = some l → l.length = vs.length := by
  intro vs
  induction vs with
  | nil => intro l h; rw [collectAttrs] at h; cases h; rfl
  | cons p ps ih =>
    intro l h
    rw [collectAttrs] at h
    cases hf : f p with
    | none => rw [hf] at h; exact absurd h (by simp)
    | some a =>
      rw [hf] at h
      cases hc : collectAttrs f ps with
      | none => rw [hc] at h; exact absurd h (by simp)
      | some rest =>
        rw [hc] at h
        cases h
        simp [ih rest hc]

theorem collectAttrs_get (f : String → Option Attributes) :
    ∀ (vs : List String) (l : List Attributes), collectAttrs f vs = some l →
      ∀ (i : Nat) (v : String), vs[i]? = some v → ∃ a, l[i]? = some a ∧ f v = some a := by
  intro vs
  induction vs with
  | nil => intro l h i v hv; simp at hv
  | cons p ps ih =>
    intro l h i v hv
    rw [collectAttrs] at h
    cases hf : f p with
    | none => rw [hf] at h; exact absurd h (by simp)
    | some a =>
      rw [hf] at h
      cases hc : collectAttrs f ps with
      | none => rw [hc] at h; exact absurd h (by simp)
      | some rest =>
        rw [hc] at h
        cases h
        cases i with
        | zero =>
          simp only [List.getElem?_cons_zero, Option.some.injEq] at hv
          exact ⟨a, by simp, by rw [← hv]; exact hf⟩
        | succ j =>
          simp only [List.getElem?_cons_succ] at hv ⊢
          exact ih rest hc j v hv

theorem rewriteAttrs_some (u : UserInfo) (vb : String) (ra : ResourceAttributes)
    (v : String) (a : Attributes) (h : rewriteAttrs u vb ra v = some a) :
    some a.Namespace = templateWithValue ra.Namespace v ∧
    some a.APIGroup = templateWithValue ra.APIGroup v ∧
    some a.APIVersion = templateWithValue ra.APIVersion v ∧
    some a.Resource = templateWithValue ra.Resource v ∧
    some a.Subresource = templateWithValue ra.Subresource v ∧
    some a.Name = templateWithValue ra.Name v ∧
    a.ResourceRequest = true ∧ a.User = u ∧ a.Verb = vb := by
  unfold rewriteAttrs at h
  rw [Option.bind_eq_some] at h
  obtain ⟨ns, hns, h⟩ := h
  rw [Option.bind_eq_some] at h
  obtain ⟨ag, hag, h⟩ := h
  rw [Option.bind_eq_some] at h
  obtain ⟨av, hav, h⟩ := h
  rw [Option.bind_eq_some] at h
  obtain ⟨rs, hrs, h⟩ := h
  rw [Option.bind_eq_some] at h
  obtain ⟨sr, hsr, h⟩ := h
  rw [Option.bind_eq_some] at h
  obtain ⟨nm, hnm, h⟩ := h
  cases h
  exact ⟨hns.symm, hag.symm, hav.symm, hrs.symm, hsr.symm, hnm.symm, rfl, rfl, rfl⟩

/-! ## Claims -/

/-- C5: evaluation of the template expander at the decisive inputs.  The empty
template renders to the empty string, and an execution-time rendering failure
(`\x7b\x7b.Missing\x7d\x7d`) is silent, yielding the partial output written
before the failure.  But for the malformed template `\x7b\x7b` (unclosed
action) the expander does abort: `Parse` fails, the discarded error leaves a
nil template, and `Execute` on the nil template re-panics a nil-pointer
runtime error (`none` here) — contradicting the claim that a malformed
template string never aborts the request. -/
theorem claim_C5_template_expander_eval :
    templateWithValue "" "anything" = some "" ∧
    templateWithValue "\x7b\x7b.Value\x7d\x7d" "v" = some "v" ∧
    templateWithValue "a-\x7b\x7b.Missing\x7d\x7d-b" "v" = some "a-" ∧
    templateWithValue "\x7b\x7b" "v" = none :=
  ⟨rfl, rfl, rfl, rfl⟩

/-- C6: `DeepCopy` does not return a configuration equal to its argument in
every field of every sub-block: on `c6Config` (whose `Authorization.Rewrites`
is set) the copy's `Rewrites` is `none` — the code never reads
`c.Authorization.Rewrites` — so the copy differs from the original.  The last
conjunct shows a second divergence: a nil `Authentication` comes back as a
non-nil empty block. -/
theorem claim_C6_deepcopy_drops_rewrites :
    (AuthConfig.DeepCopy c6Config).Authorization =
      some { Rewrites := none, ResourceAttributes := some raW8 } ∧
    c6Config.Authorization =
      some { Rewrites := some { ByQueryParameter := some { Name := "namespace" } },
             ResourceAttributes := some raW8 } ∧
    AuthConfig.DeepCopy c6Config ≠ c6Config ∧
    (AuthConfig.DeepCopy { Authentication := none, Authorization := none }).Authentication =
      some { X509 := none, Header := none } :=
  ⟨rfl, rfl, by decide, rfl⟩

/-- C7: with `ResourceAttributes` unset, the resolver produces exactly one
query: not a resource request, non-resource path equal to the request's URL
path, and all six resource fields empty — whatever the `Rewrites` block is. -/
theorem claim_C7_non_resource_single_query (azc : AuthzConfig) (u : UserInfo) (r : Request)
    (hra : azc.ResourceAttributes = none) :
    GetRequestAttributes { authzConfig := some azc } u r =
      some [{ User := u, Verb := apiVerbFor r.method, Namespace := "", APIGroup := "",
              APIVersion := "", Resource := "", Subresource := "", Name := "",
              ResourceRequest := false, Path := r.urlPath }] := by
  simp [GetRequestAttributes, hra, nonResourceAttrs]

/-- C7 witness: `azcW7` has a rewrite block configured but `ResourceAttributes`
unset; the request's path is `/metrics`. -/
theorem claim_C7_witness :
    GetRequestAttributes { authzConfig := some azcW7 } uW rW7 =
      some [{ User := uW, Verb := "get", Namespace := "", APIGroup := "", APIVersion := "",
              Resource := "", Subresource := "", Name := "", ResourceRequest := false,
              Path := "/metrics" }] :=
  claim_C7_non_resource_single_query azcW7 uW rW7 rfl

/-- C8: with `ResourceAttributes` set and no rewrite configured, the resolver
produces exactly one query whose six resource fields are taken verbatim from
the configured literals, for every request (independent of its query string). -/
theorem claim_C8_literal_single_query (azc : AuthzConfig) (ra : ResourceAttributes)
    (u : UserInfo) (r : Request)
    (hra : azc.ResourceAttributes = some ra) (hrw : rewriteQueryKey azc = none) :
    GetRequestAttributes { authzConfig := some azc } u r =
      some [{ User := u, Verb := apiVerbFor r.method, Namespace := ra.Namespace,
              APIGroup := ra.APIGroup, APIVersion := ra.APIVersion, Resource := ra.Resource,
              Subresource := ra.Subresource, Name := ra.Name,
              ResourceRequest := true, Path := "" }] := by
  simp [GetRequestAttributes, hra, hrw, literalAttrs]

/-- C8 witness: the request's query string carries unrelated keys; the query
still consists of the configured literals. -/
theorem claim_C8_witness :
    GetRequestAttributes { authzConfig := some azcW8 } uW rW8 =
      some [{ User := uW, Verb := "create", Namespace := "kube-system",
              APIGroup := "metrics.k8s.io", APIVersion := "v1beta1", Resource := "pods",
              Subresource := "metrics", Name := "pod-1", ResourceRequest := true,
              Path := "" }] :=
  claim_C8_literal_single_query azcW8 raW8 uW rW8 rfl rfl

/-- C3: when the authenticator errors or reports not-authenticated, the gate
writes 401 with body "Unauthorized" (the same response in both cases), returns
false, leaves the request headers unchanged and passes nothing to the
authorizer.  The conclusion holds for every configuration, including ones on
which the attribute resolver would panic, which shows the resolver is not
invoked. -/
theorem claim_C3_unauthenticated_401 (cfg : AuthConfig) (authn : AuthnOutcome)
    (az : Attributes → AuthzOutcome) (r : Request)
    (h : authn.err = true ∨ authn.ok = false) :
    Handle cfg authn az r =
      some { returned := false, response := some (401, "Unauthorized"),
             reqHeader := r.header, authorized := [] } := by
  rcases h with h | h
  · simp [Handle, h]
  · cases he : authn.err
    · simp [Handle, he, h]
    · simp [Handle, he]

/-- C3 witness: an authenticator error on a configuration whose nil
`Authorization` would make the resolver panic if it were reached. -/
theorem claim_C3_witness :
    Handle cfgW authnErrW azDenyW rW7 =
      some { returned := false, response := some (401, "Unauthorized"),
             reqHeader := [("Accept", "text/plain")], authorized := [] } :=
  claim_C3_unauthenticated_401 cfgW authnErrW azDenyW rW7 (Or.inl rfl)

/-- C1: queries are authorized strictly in sequence order.  If every query in
`pre` is allowed and the next query `a` fails — with an internal authorizer
error, or with a decision other than allow — the gate rejects with 500
(respectively 403), the authorizer is invoked exactly on `pre ++ [a]` (the
queries in `post` are never evaluated), and the request headers are untouched. -/
theorem claim_C1_and_semantics_short_circuit (cfg : AuthConfig) (authn : AuthnOutcome)
    (az : Attributes → AuthzOutcome) (r : Request)
    (pre post : List Attributes) (a : Attributes)
    (herr : authn.err = false) (hok : authn.ok = true)
    (hres : GetRequestAttributes { authzConfig := cfg.Authorization } authn.u r =
              some (pre ++ a :: post))
    (hpre : ∀ b ∈ pre, (az b).err = false ∧ (az b).decision = Decision.allow)
    (hbad : (az a).err = true ∨ (az a).decision ≠ Decision.allow) :
    Handle cfg authn az r =
      some { returned := false,
             response := some (if (az a).err then (500, authzErrorMsg authn.u a)
                               else (403, forbiddenMsg authn.u a)),
             reqHeader := r.header, authorized := pre ++ [a] } := by
  have hseq := authorizeSequence_append az pre (a :: post) hpre
  unfold Handle
  simp only [herr, hok, hres, Bool.false_eq_true, if_false, Bool.not_true]
  rw [if_neg (by simp)]
  rw [hseq]
  cases hae : (az a).err with
  | true =>
    simp only [authorizeSequence, hae, if_true]
  | false =>
    have hdec : ¬ (az a).decision = Decision.allow := by
      rcases hbad with hb | hb
      · rw [hae] at hb; exact absurd hb (by simp)
      · exact hb
    simp only [authorizeSequence, hae, Bool.false_eq_true, if_false, if_neg hdec]

/-- C1 witness: a one-query sequence whose only query is denied, on `cfgW1`;
the gate answers 403 after evaluating exactly that query. -/
theorem claim_C1_witness :
    Handle cfgW1 authnOkW azDenyW rW8 =
      some { returned := false, response := some (403, forbiddenMsg uW aW1),
             reqHeader := [], authorized := [aW1] } :=
  claim_C1_and_semantics_short_circuit cfgW1 authnOkW azDenyW rW8 [] [] aW1 rfl rfl rfl
    (by simp) (Or.inr (by decide))

/-- C10: on the success path (authenticated, non-empty attributes, every query
allowed) `Handle` dereferences `Config.Authentication.Header` unconditionally,
so with a nil `Authentication` or a nil `Header` the call panics (`none`)
instead of forwarding without header injection. -/
theorem claim_C10_success_path_nil_header_panics (cfg : AuthConfig) (authn : AuthnOutcome)
    (az : Attributes → AuthzOutcome) (r : Request) (l : List Attributes)
    (herr : authn.err = false) (hok : authn.ok = true)
    (hres : GetRequestAttributes { authzConfig := cfg.Authorization } authn.u r = some l)
    (hne : l ≠ [])
    (hall : ∀ b ∈ l, (az b).err = false ∧ (az b).decision = Decision.allow)
    (hhdr : cfg.Authentication = none ∨
            ∃ ac, cfg.Authentication = some ac ∧ ac.Header = none) :
    Handle cfg authn az r = none := by
  unfold Handle
  simp only [herr, hok, hres, Bool.false_eq_true, if_false, Bool.not_true]
  rw [if_neg (by simpa [List.length_eq_zero] using hne)]
  rw [authorizeSequence_all_allow az l hall]
  rcases hhdr with hnone | ⟨ac, hac, hhd⟩
  · simp only [hnone]
  · simp only [hac, hhd]

/-- C10 witness: `cfgW10` authenticates with header injection policy nil; the
all-allow run on the single literal query panics. -/
theorem claim_C10_witness : Handle cfgW10 authnOkW azAllowW rW8 = none :=
  claim_C10_success_path_nil_header_panics cfgW10 authnOkW azAllowW rW8 [aW1] rfl rfl rfl
    (by simp) (fun b _ => ⟨rfl, rfl⟩)
    (Or.inr ⟨{ X509 := none, Header := none }, rfl, rfl⟩)

/-- C2: with `ResourceAttributes` set and a query-parameter rewrite key
configured, a request carrying the values `vs` for that key resolves — when
rendering completes without a template panic — to exactly `vs.length` queries,
the i-th having each of the six resource fields equal to the corresponding
configured template rendered against the i-th value, and marked as a resource
request; and when the key is absent from the request URL, resolution yields
the empty sequence and the gate rejects with 400. -/
theorem claim_C2_rewrite_fanout (cfg : AuthConfig) (azc : AuthzConfig)
    (ra : ResourceAttributes) (key : String) (authn : AuthnOutcome)
    (az : Attributes → AuthzOutcome) (r : Request)
    (hra : azc.ResourceAttributes = some ra)
    (hkey : rewriteQueryKey azc = some key) :
    (∀ (vs : List String) (l : List Attributes),
       queryLookup r.query key = some vs →
       GetRequestAttributes { authzConfig := some azc } authn.u r = some l →
       l.length = vs.length ∧
       ∀ (i : Nat) (v : String), vs[i]? = some v →
         ∃ a, l[i]? = some a ∧
           some a.Namespace = templateWithValue ra.Namespace v ∧
           some a.APIGroup = templateWithValue ra.APIGroup v ∧
           some a.APIVersion = templateWithValue ra.APIVersion v ∧
           some a.Resource = templateWithValue ra.Resource v ∧
           some a.Subresource = templateWithValue ra.Subresource v ∧
           some a.Name = templateWithValue ra.Name v ∧
           a.ResourceRequest = true) ∧
    (queryLookup r.query key = none →
       GetRequestAttributes { authzConfig := some azc } authn.u r = some [] ∧
       (authn.err = false → authn.ok = true → cfg.Authorization = some azc →
          Handle cfg authn az r =
            some { returned := false, response := some (400, badRequestMsg),
                   reqHeader := r.header, authorized := [] })) := by
  constructor
  · intro vs l hq hres
    have hcoll : collectAttrs (rewriteAttrs authn.u (apiVerbFor r.method) ra) vs = some l := by
      simp only [GetRequestAttributes, hra, hkey, hq] at hres
      exact hres
    refine ⟨collectAttrs_length _ vs l hcoll, ?_⟩
    intro i v hv
    obtain ⟨a, hla, hfa⟩ := collectAttrs_get _ vs l hcoll i v hv
    have hs := rewriteAttrs_some authn.u (apiVerbFor r.method) ra v a hfa
    exact ⟨a, hla, hs.1, hs.2.1, hs.2.2.1, hs.2.2.2.1, hs.2.2.2.2.1, hs.2.2.2.2.2.1,
           hs.2.2.2.2.2.2.1⟩
  · intro hq
    have hres : GetRequestAttributes { authzConfig := some azc } authn.u r = some [] := by
      simp only [GetRequestAttributes, hra, hkey, hq]
    refine ⟨hres, fun herr hok hcfg => ?_⟩
    unfold Handle
    rw [hcfg]
    simp [herr, hok, hres]

/-- C2 witness: the rewrite key `namespace` occurs twice in `rW2`'s query
string, so resolution fans out to the two rendered queries of `lW2`; on
`rW2absent`, which lacks the key, resolution is empty and the gate answers
400. -/
theorem claim_C2_witness :
    lW2.length = 2 ∧
    some (attrsNsW2 "ns2").Namespace = templateWithValue raW2.Namespace "ns2" ∧
    GetRequestAttributes { authzConfig := some azcW2 } uW rW2absent = some [] ∧
    Handle cfgW2 authnOkW azDenyW rW2absent =
      some { returned := false, response := some (400, badRequestMsg),
             reqHeader := [], authorized := [] } := by
  have h := claim_C2_rewrite_fanout cfgW2 azcW2 raW2 "namespace" authnOkW azDenyW rW2 rfl rfl
  have h1 := h.1 ["ns1", "ns2"] lW2 rfl rfl
  obtain ⟨a, ha, hns, _⟩ := h1.2 1 "ns2" rfl
  have haeq : a = attrsNsW2 "ns2" := by
    have h0 : lW2[1]? = some (attrsNsW2 "ns2") := rfl
    rw [ha] at h0
    exact (Option.some.injEq a (attrsNsW2 "ns2")).mp h0
  have h2 := (claim_C2_rewrite_fanout cfgW2 azcW2 raW2 "namespace" authnOkW azDenyW
    rW2absent rfl rfl).2 rfl
  exact ⟨h1.1, haeq ▸ hns, h2.1, h2.2 rfl rfl rfl⟩

/-- C9: the HTTP method maps to the verb as POST→create, GET→get, PUT→update,
PATCH→patch, DELETE→delete, and any other method maps to the empty verb; an
empty verb is not an error — the request still reaches attribute resolution
and the authorizer is invoked on the derived query (shown here on a literal
resource configuration: the gate does not panic and its authorizer trace is
exactly the one query carrying the empty verb). -/
theorem claim_C9_method_verb_mapping (m : String)
    (h1 : m ≠ "POST") (h2 : m ≠ "GET") (h3 : m ≠ "PUT") (h4 : m ≠ "PATCH")
    (h5 : m ≠ "DELETE")
    (cfg : AuthConfig) (authn : AuthnOutcome) (az : Attributes → AuthzOutcome) (r : Request)
    (azc : AuthzConfig) (ra : ResourceAttributes) (ac : AuthnConfig)
    (hc : AuthnHeaderConfig)
    (hm : r.method = m) (herr : authn.err = false) (hok : authn.ok = true)
    (hcfg : cfg.Authorization = some azc) (hra : azc.ResourceAttributes = some ra)
    (hrw : rewriteQueryKey azc = none)
    (hac : cfg.Authentication = some ac) (hhc : ac.Header = some hc) :
    apiVerbFor "POST" = "create" ∧ apiVerbFor "GET" = "get" ∧
    apiVerbFor "PUT" = "update" ∧ apiVerbFor "PATCH" = "patch" ∧
    apiVerbFor "DELETE" = "delete" ∧ apiVerbFor m = "" ∧
    (Handle cfg authn az r).map GateResult.authorized =
      some [literalAttrs authn.u "" ra] := by
  have hverb : apiVerbFor m = "" := by
    unfold apiVerbFor
    rw [if_neg h1, if_neg h2, if_neg h3, if_neg h4, if_neg h5]
  refine ⟨rfl, rfl, rfl, rfl, rfl, hverb, ?_⟩
  have hres : GetRequestAttributes { authzConfig := cfg.Authorization } authn.u r =
      some [literalAttrs authn.u "" ra] := by
    rw [hcfg]
    simp only [GetRequestAttributes, hra, hrw, hm, hverb]
  unfold Handle
  simp only [herr, hok, hres, Bool.false_eq_true, if_false, Bool.not_true]
  rw [if_neg (by simp)]
  cases hae : (az (literalAttrs authn.u "" ra)).err with
  | true =>
    simp only [authorizeSequence, hae, if_true]
    rfl
  | false =>
    by_cases had : (az (literalAttrs authn.u "" ra)).decision = Decision.allow
    · simp only [authorizeSequence, hae, Bool.false_eq_true, if_false, had, if_true, hac, hhc]
      cases hen : hc.Enabled with
      | true => simp [hen]
      | false => simp [hen]
    · simp only [authorizeSequence, hae, Bool.false_eq_true, if_false, if_neg had]
      rfl

/-- C9 witness: an OPTIONS request on `cfgW4`: the verb is empty and the
authorizer is still invoked on the single literal query. -/
theorem claim_C9_witness :
    apiVerbFor "OPTIONS" = "" ∧
    (Handle cfgW4 authnOkW azDenyW rW9).map GateResult.authorized =
      some [literalAttrs uW "" raW8] := by
  have h := claim_C9_method_verb_mapping "OPTIONS" (by decide) (by decide) (by decide)
    (by decide) (by decide) cfgW4 authnOkW azDenyW rW9 azcW8 raW8 acW hcW
    rfl rfl rfl rfl rfl rfl rfl rfl
  exact ⟨h.2.2.2.2.2.1, h.2.2.2.2.2.2⟩

/-- C4: the gate mutates the request's header collection only on the
full-success path: whenever `Handle` completes with `returned = false` (any of
the 401, 400, 403, 500 rejections) the request headers are unchanged; on
success with header injection enabled, the configured user header is set to
the identity's name and the configured groups header to the group names
joined by the configured separator. -/
theorem claim_C4_header_frame_effect (cfg : AuthConfig) (authn : AuthnOutcome)
    (az : Attributes → AuthzOutcome) (r : Request) (gr : GateResult)
    (h : Handle cfg authn az r = some gr) :
    (gr.returned = false → gr.reqHeader = r.header) ∧
    (∀ (ac : AuthnConfig) (hc : AuthnHeaderConfig),
       gr.returned = true → cfg.Authentication = some ac → ac.Header = some hc →
       hc.Enabled = true →
       gr.reqHeader =
         headerSet (headerSet r.header hc.UserFieldName authn.u.name)
           hc.GroupsFieldName (String.intercalate hc.GroupSeparator authn.u.groups)) := by
  unfold Handle at h
  split at h
  · obtain rfl := Option.some.inj h
    exact ⟨fun _ => rfl, fun ac hc hret _ _ _ => by simp at hret⟩
  · split at h
    · obtain rfl := Option.some.inj h
      exact ⟨fun _ => rfl, fun ac hc hret _ _ _ => by simp at hret⟩
    · split at h
      · exact absurd h (by simp)
      · split at h
        · obtain rfl := Option.some.inj h
          exact ⟨fun _ => rfl, fun ac hc hret _ _ _ => by simp at hret⟩
        · split at h
          · obtain rfl := Option.some.inj h
            exact ⟨fun _ => rfl, fun ac hc hret _ _ _ => by simp at hret⟩
          · obtain rfl := Option.some.inj h
            exact ⟨fun _ => rfl, fun ac hc hret _ _ _ => by simp at hret⟩
          · split at h
            · exact absurd h (by simp)
            · split at h
              · exact absurd h (by simp)
              · split at h
                · obtain rfl := Option.some.inj h
                  refine ⟨fun hret => by simp at hret, fun ac hc hret hac hhc hen => ?_⟩
                  simp_all
                · obtain rfl := Option.some.inj h
                  refine ⟨fun _ => rfl, fun ac hc hret hac hhc hen => ?_⟩
                  simp_all

/-- C4 witness: a fully successful run on `cfgW4` (header injection enabled):
the final headers are exactly the two injected ones — user header `alice`,
groups header `metrics-readers|admins`. -/
theorem claim_C4_witness :
    grW4.returned = true ∧
    grW4.reqHeader =
      headerSet (headerSet rW8.header "X-Remote-User" "alice") "X-Remote-Groups"
        (String.intercalate "|" ["metrics-readers", "admins"]) :=
  ⟨rfl, (claim_C4_header_frame_effect cfgW4 authnOkW azAllowW rW8 grW4 rfl).2
          acW hcW rfl rfl rfl rfl⟩
